import Mathlib

/-!
Verification development for the WTemplate directive-based templating and
incremental-binding engine (src/src/Wt/WTemplate.h).

The repository ships only the class declaration (WTemplate.h) with its
documentation comments; the method bodies (WTemplate.C) are not part of the
source tree.  The definitions below are therefore a shallow embedding
modelled from the specification and from the header's own documentation
comments: template text is a list of characters, the scanner produces a list
of directive tokens, and the resolution engine is a recursive interpreter
over those tokens with explicit state (bindings, conditions, functions,
render-diff tracking).
-/

/-- Modelled from the spec: a bound component (widget) is opaque to the core;
the component render hook yields its markup representation and its unique
identifier (spec section 6, "Component render hook"). The WWidget class itself
is outside this repository's source. -/
structure Widget where
  id : Nat
  markup : List Char
deriving Repr, DecidableEq

/-- Modelled from the spec: the three directive shapes produced by the
Directive Scanner (spec section 4.1), plus literal runs. `fn` carries the
function name and its argument list (primary colon-argument first). -/
inductive Tok where
  | lit (s : List Char)
  | openBlock (name : String)
  | closeBlock (name : String)
  | var (name : String) (args : List String)
  | fn (name : String) (args : List String)
deriving Repr, DecidableEq

/-- Modelled from the spec: the outcome of one render pass — the emitted
text, the ordered newly-rendered component identities, the success flag
returned by renderTemplateText, and the retrievable error text. -/
structure RenderResult where
  out : List Char
  newly : List Nat
  ok : Bool
  err : String
deriving Repr, DecidableEq

/-- Association-list lookup by name (models std::map::find). -/
def alookup {α : Type} : List (String × α) → String → Option α
  | [], _ => none
  | p :: rest, n => if p.1 = n then some p.2 else alookup rest n

/-- Remove every entry with the given name (models std::map::erase). -/
def aerase {α : Type} (m : List (String × α)) (n : String) : List (String × α) :=
  m.filter (fun p => !decide (p.1 = n))

/-- Insert or overwrite the entry with the given name (models map assignment). -/
def ainsert {α : Type} (m : List (String × α)) (n : String) (v : α) :
    List (String × α) :=
  (n, v) :: aerase m n

/-- Modelled from the spec: the shared resolution environment of one
WTemplate instance — string bindings, owned component bindings, the set of
conditions currently true, the function registry, and the caller-supplied
fallback variable resolver hook (spec sections 3 and 6). Functions are
abstracted as pure callables from an argument list to an optional output
(section 3, "Function Entry"). -/
structure Env where
  strings : List (String × String)
  widgets : List (String × Widget)
  conditions : List String
  functions : List (String × (List String → Option String))
  fallback : String → List String → Option (List Char)

/-- Modelled from the spec: the per-instance state of the template widget:
the resolution environment together with the Render-Diff Tracker's
previously-rendered set (previouslyRendered_) and the stored error text
(errorText_). -/
structure RState where
  env : Env
  prevRendered : List Nat
  errorText : String

/-- The empty environment: no bindings, no conditions, no functions, and the
default (absent) fallback resolver. -/
def initEnv : Env :=
  { strings := [], widgets := [], conditions := [], functions := [],
    fallback := fun _ _ => none }

/-- The initial state of a freshly constructed template. -/
def initState : RState :=
  { env := initEnv, prevRendered := [], errorText := "" }

/-- Condition lookup: the condition set holds the names set to true; the
default value of all conditions is false (WTemplate.h line 592). -/
def conditionValue (env : Env) (n : String) : Bool :=
  decide (n ∈ env.conditions)

/-- A position in the template is included iff every enclosing conditional
block's condition is true (spec section 4.5). -/
def included (stack : List (String × Bool)) : Bool :=
  stack.all (fun p => p.2)

/-- Modelled from the spec: handleUnresolvedVariable consults the
caller-supplied fallback hook; the default implementation writes
"??" ++ varName ++ "??" to the result stream (WTemplate.h lines 632-650). -/
def handleUnresolvedVariable (env : Env) (n : String) (args : List String) :
    List Char :=
  match env.fallback n args with
  | some s => s
  | none => '?' :: '?' :: (n.data ++ ['?', '?'])

/-- Modelled from the spec: resolveString first considers a string bound with
bindString; if present that string is written.  Otherwise it attempts to
resolve a widget with that variable name and renders it as markup, recording
it as newly rendered.  If that fails too, handleUnresolvedVariable is called
(WTemplate.h lines 606-630).  Returns the written text and the recorded
component identities. -/
def resolveString (env : Env) (n : String) (args : List String) :
    List Char × List Nat :=
  match alookup env.strings n with
  | some s => (s.data, [])
  | none =>
    match alookup env.widgets n with
    | some w => (w.markup, [w.id])
    | none => (handleUnresolvedVariable env n args, [])

/-- Modelled from the spec: resolveFunction looks the name up among the
functions bound with addFunction and applies it; `none` means no function
matched or the function did not produce output (WTemplate.h lines 696-709). -/
def resolveFunction (env : Env) (n : String) (args : List String) :
    Option String :=
  match alookup env.functions n with
  | some f => f args
  | none => none

/-- Modelled from the spec: an unresolved function directive is left
literally unresolved in the output (spec section 7, UnresolvedFunction);
the directive text is reconstructed canonically. -/
def unresolvedFnText (n : String) (args : List String) : List Char :=
  '$' :: '{' :: (n.data ++ args.foldl (fun acc a => acc ++ (':' :: a.data)) [] ++ ['}'])

/-- Placeholder names consist of alphanumeric characters, '_', '-' and '.'
(WTemplate.h line 55, spec section 4.1). -/
def nameChar (c : Char) : Bool :=
  c.isAlphanum || c = '_' || c = '-' || c = '.'

/-- Take the longest prefix of name characters; returns (name, rest). -/
def takeName : List Char → List Char × List Char
  | [] => ([], [])
  | c :: cs =>
    if nameChar c then
      let p := takeName cs
      (c :: p.1, p.2)
    else ([], c :: cs)

/-- Characters ending an unquoted argument token: whitespace, the directive
terminator, or an opening quote (spec section 4.2). -/
def stopChar (c : Char) : Bool :=
  c = ' ' || c = '}' || c = '"' || c = '\''

/-- Take an unquoted run up to the next stop character; returns (token, rest). -/
def takeBare : List Char → List Char × List Char
  | [] => ([], [])
  | c :: cs =>
    if stopChar c then ([], c :: cs)
    else
      let p := takeBare cs
      (c :: p.1, p.2)

/-- Parse a quoted value up to the closing quote `q`; quotes are stripped and
no escape sequences are interpreted inside (spec section 4.2). -/
def parseQuoted (q : Char) : List Char → Option (List Char × List Char)
  | [] => none
  | c :: cs =>
    if c = q then some ([], cs)
    else
      match parseQuoted q cs with
      | some (v, r) => some (c :: v, r)
      | none => none

/-- Modelled from the spec: the Argument Parser (spec section 4.2; the
parseArgs member of WTemplate, whose body is not in the source tree).  Parses
whitespace-separated arguments, each a bare token or ident=value with a
single- or double-quoted value, stopping before the closing brace of the
directive.  Takes fuel for termination; the caller supplies the input length. -/
def parseArgsF : Nat → List Char → Option (List String × List Char)
  | 0, _ => none
  | _ + 1, [] => none
  | f + 1, c :: cs =>
    if c = '}' then some ([], c :: cs)
    else if c = ' ' then parseArgsF f cs
    else
      let p := takeBare (c :: cs)
      match p.2 with
      | [] => none
      | q :: rest =>
        if q = '"' || q = '\'' then
          match parseQuoted q rest with
          | some (v, r) =>
            match parseArgsF f r with
            | some (args, r') => some (String.mk (p.1 ++ v) :: args, r')
            | none => none
          | none => none
        else
          match parseArgsF f p.2 with
          | some (args, r') => some (String.mk p.1 :: args, r')
          | none => none

/-- Modelled from the spec: parse one directive body, positioned just after
the opening "${" (spec section 4.1).  Distinguishes the three shapes:
conditional-block open, conditional-block close, and variable or
function-with-colon-argument references.  Malformed content yields `none`,
an error condition propagated to the caller. -/
def scanDirective (cs : List Char) : Option (Tok × List Char) :=
  match cs with
  | '<' :: '/' :: cs' =>
    match takeName cs' with
    | (n, '>' :: '}' :: r) =>
      if n.isEmpty then none else some (Tok.closeBlock (String.mk n), r)
    | _ => none
  | '<' :: cs' =>
    match takeName cs' with
    | (n, '>' :: '}' :: r) =>
      if n.isEmpty then none else some (Tok.openBlock (String.mk n), r)
    | _ => none
  | _ =>
    match takeName cs with
    | (n, r) =>
      if n.isEmpty then none
      else
        match r with
        | ':' :: r' =>
          let a := takeBare r'
          match parseArgsF (a.2.length + 1) a.2 with
          | some (args, '}' :: r₃) =>
            some (Tok.fn (String.mk n) (String.mk a.1 :: args), r₃)
          | _ => none
        | _ =>
          match parseArgsF (r.length + 1) r with
          | some (args, '}' :: r₃) => some (Tok.var (String.mk n) args, r₃)
          | _ => none

/-- Modelled from the spec: the Directive Scanner (spec section 4.1).  "$$"
is consumed as an escape and emits a single literal '$'; "${" opens a
directive; any other character is a literal.  Takes fuel for termination;
the top-level entry supplies the input length. -/
def scanF : Nat → List Char → Option (List Tok)
  | 0, _ => none
  | _ + 1, [] => some []
  | _ + 1, [c] => some [Tok.lit [c]]
  | f + 1, c :: d :: cs =>
    if c = '$' then
      if d = '$' then (scanF f cs).map (fun ts => Tok.lit ['$'] :: ts)
      else if d = '{' then
        match scanDirective cs with
        | some (t, r) => (scanF f r).map (fun ts => t :: ts)
        | none => none
      else (scanF f (d :: cs)).map (fun ts => Tok.lit [c] :: ts)
    else (scanF f (d :: cs)).map (fun ts => Tok.lit [c] :: ts)

/-- Tokenize a whole template text. -/
def scan (cs : List Char) : Option (List Tok) :=
  scanF (cs.length + 1) cs

/-- A template text contains no directives: no occurrence of "${" survives
the "$$" escape rule. -/
def noDirectives : List Char → Bool
  | [] => true
  | [_] => true
  | c :: d :: cs =>
    if c = '$' then
      if d = '$' then noDirectives cs
      else if d = '{' then false
      else noDirectives (d :: cs)
    else noDirectives (d :: cs)

/-- The "$$" to "$" escape applied to a literal template text. -/
def unescape : List Char → List Char
  | [] => []
  | [c] => [c]
  | c :: d :: cs =>
    if c = '$' then
      if d = '$' then '$' :: unescape cs
      else c :: unescape (d :: cs)
    else c :: unescape (d :: cs)

/-- The literal token stream the scanner produces on directive-free text. -/
def litToks : List Char → List Tok
  | [] => []
  | [c] => [Tok.lit [c]]
  | c :: d :: cs =>
    if c = '$' then
      if d = '$' then Tok.lit ['$'] :: litToks cs
      else Tok.lit [c] :: litToks (d :: cs)
    else Tok.lit [c] :: litToks (d :: cs)

/-- Modelled from the spec: the Resolution Engine (spec section 4.5), a walk
over the scanned tokens with a conditional-block stack.  Literal and
resolved output is written only while every enclosing block is included;
block open pushes the condition value; block close must match the innermost
open block's name; end of input with a non-empty stack, a close without an
open, or a mismatched close are UnbalancedBlock errors that abort the render
with a retrievable error text. -/
def renderToks (env : Env) :
    List Tok → List (String × Bool) → List Char → List Nat → RenderResult
  | [], stack, out, newly =>
    if stack.isEmpty then ⟨out, newly, true, ""⟩
    else ⟨out, newly, false, "UnbalancedBlock: missing closing block directive"⟩
  | Tok.lit s :: ts, stack, out, newly =>
    if included stack then renderToks env ts stack (out ++ s) newly
    else renderToks env ts stack out newly
  | Tok.openBlock n :: ts, stack, out, newly =>
    renderToks env ts ((n, conditionValue env n) :: stack) out newly
  | Tok.closeBlock _ :: _, [], out, newly =>
    ⟨out, newly, false, "UnbalancedBlock: closing directive without matching open"⟩
  | Tok.closeBlock n :: ts, (m, _) :: stack, out, newly =>
    if n = m then renderToks env ts stack out newly
    else ⟨out, newly, false, "UnbalancedBlock: mismatched closing directive"⟩
  | Tok.var n args :: ts, stack, out, newly =>
    if included stack then
      renderToks env ts stack (out ++ (resolveString env n args).1)
        (newly ++ (resolveString env n args).2)
    else renderToks env ts stack out newly
  | Tok.fn n args :: ts, stack, out, newly =>
    if included stack then
      match resolveFunction env n args with
      | some o => renderToks env ts stack (out ++ o.data) newly
      | none => renderToks env ts stack (out ++ unresolvedFnText n args) newly
    else renderToks env ts stack out newly

/-- Modelled from the spec: renderTemplateText parses the template and
resolves variables by calling resolveString, returning success and, on
failure, a retrievable error text (WTemplate.h lines 778-790). -/
def renderTemplateText (env : Env) (text : List Char) : RenderResult :=
  match scan text with
  | none => ⟨[], [], false, "MalformedDirective: could not parse template text"⟩
  | some toks => renderToks env toks [] [] []

/-- getErrorText returns the stored error text (WTemplate.h line 795). -/
def getErrorText (st : RState) : String :=
  st.errorText

/-- Modelled from the spec: one full render cycle with the Render-Diff
Tracker (spec section 4.6): render, compute
removed = previously_rendered minus newly_rendered, then replace the
previously-rendered set with the newly-rendered one and store the error
text.  Returns the new state, the render result, and the removed set. -/
def renderCycle (st : RState) (text : List Char) :
    RState × RenderResult × List Nat :=
  let r := renderTemplateText st.env text
  ({ st with prevRendered := r.newly, errorText := r.err },
   r,
   st.prevRendered.filter (fun i => decide (i ∉ r.newly)))

/-- bindString stores a string binding, removing any existing component
binding for that name first (WTemplate.h lines 414-427, spec section 4.3). -/
def bindString (st : RState) (n : String) (v : String) : RState :=
  { st with env := { st.env with strings := ainsert st.env.strings n v,
                                 widgets := aerase st.env.widgets n } }

/-- bindEmpty binds an empty string to a variable; a widget bound to the
variable is deleted first (WTemplate.h lines 548-554). -/
def bindEmpty (st : RState) (n : String) : RState :=
  bindString st n ""

/-- The given widget is already bound under a variable name other than `n`. -/
def boundElsewhere (env : Env) (n : String) (w : Widget) : Bool :=
  env.widgets.any (fun p => decide (p.2.id = w.id ∧ p.1 ≠ n))

/-- Modelled from the spec: bindWidget (WTemplate.h lines 435-463).  A null
widget is accepted and resolves to an empty string, any previously bound
widget being removed first (header lines 450-451).  A widget already bound
under another variable is an AlreadyBoundComponent error: the bind call is a
no-op failure (spec sections 4.3 and 7; the header, lines 439-441, only
states the requirement).  Otherwise the widget is bound, deleting a widget
previously bound to the variable and removing a previously bound string
(header lines 446-448). -/
def bindWidget (st : RState) (n : String) (w : Option Widget) : RState × Bool :=
  match w with
  | none => (bindEmpty st n, true)
  | some w =>
    if boundElsewhere st.env n w then (st, false)
    else
      ({ st with env := { st.env with widgets := ainsert st.env.widgets n w,
                                      strings := aerase st.env.strings n } },
       true)

/-- setCondition enables or disables the inclusion of a conditional block;
the condition set stores the names set to true (WTemplate.h lines 588-604). -/
def setCondition (st : RState) (n : String) (v : Bool) : RState :=
  { st with env := { st.env with conditions :=
      if v then n :: st.env.conditions.filter (fun m => !decide (m = n))
      else st.env.conditions.filter (fun m => !decide (m = n)) } }

/-- addFunction registers (or overwrites) a function binding
(WTemplate.h lines 556-586). -/
def addFunction (st : RState) (n : String) (f : List String → Option String) :
    RState :=
  { st with env := { st.env with functions := ainsert st.env.functions n f } }

/-- clear erases all variable bindings: removes all strings and all bound
widgets, resets all conditions, but does not remove functions added with
addFunction (WTemplate.h lines 721-729). -/
def clear (st : RState) : RState :=
  { st with env := { st.env with strings := [], widgets := [], conditions := [] } }

/-- A token sequence is properly nested relative to a stack of open block
names: every close matches the innermost open, and the stack is empty at the
end. -/
def matchedAux : List Tok → List String → Bool
  | [], ns => ns.isEmpty
  | Tok.openBlock n :: ts, ns => matchedAux ts (n :: ns)
  | Tok.closeBlock _ :: _, [] => false
  | Tok.closeBlock n :: ts, m :: ns => if n = m then matchedAux ts ns else false
  | Tok.lit _ :: ts, ns => matchedAux ts ns
  | Tok.var _ _ :: ts, ns => matchedAux ts ns
  | Tok.fn _ _ :: ts, ns => matchedAux ts ns

/-- Erasing a name from an association list makes its lookup fail. -/
theorem alookup_aerase {α : Type} (m : List (String × α)) (n : String) :
    alookup (aerase m n) n = none := by
  induction m with
  | nil => rfl
  | cons p rest ih =>
    by_cases h : p.1 = n
    · simpa [aerase, List.filter_cons, h] using ih
    · simpa [aerase, List.filter_cons, h, alookup] using ih

/-- Filtering a list by non-membership in a superset yields the empty list. -/
theorem filter_not_mem_sub (l : List Nat) :
    ∀ l₁ : List Nat, (∀ x, x ∈ l₁ → x ∈ l) →
      l₁.filter (fun i => decide (i ∉ l)) = [] := by
  intro l₁
  induction l₁ with
  | nil => intro _; rfl
  | cons a t ih =>
    intro h
    have ha : a ∈ l := h a (List.mem_cons_self a t)
    have hb : (fun i => decide (i ∉ l)) a = false := by simp [ha]
    simp only [List.filter_cons, hb, Bool.false_eq_true, if_false]
    exact ih (fun x hx => h x (List.mem_cons_of_mem a hx))

/-- The success flag of the resolution engine depends only on the proper
nesting of the block directives against the open-block stack, and every
failure leaves a non-empty error text. -/
theorem renderToks_ok_err (env : Env) :
    ∀ (toks : List Tok) (stack : List (String × Bool)) (out : List Char)
      (newly : List Nat),
      (renderToks env toks stack out newly).ok
          = matchedAux toks (stack.map Prod.fst)
      ∧ ((renderToks env toks stack out newly).ok = false →
          (renderToks env toks stack out newly).err ≠ "") := by
  intro toks
  induction toks with
  | nil =>
    intro stack out newly
    cases stack with
    | nil => simp [renderToks, matchedAux]
    | cons p rest =>
      refine ⟨by simp [renderToks, matchedAux], fun _ => by simp [renderToks]⟩
  | cons t ts ih =>
    intro stack out newly
    cases t with
    | lit s =>
      by_cases h : included stack = true
      · simpa [renderToks, matchedAux, h] using ih stack (out ++ s) newly
      · simpa [renderToks, matchedAux, h] using ih stack out newly
    | openBlock n =>
      simpa [renderToks, matchedAux] using
        ih ((n, conditionValue env n) :: stack) out newly
    | closeBlock n =>
      cases stack with
      | nil =>
        refine ⟨by simp [renderToks, matchedAux], fun _ => by simp [renderToks]⟩
      | cons p rest =>
        by_cases h : n = p.1
        · simpa [renderToks, matchedAux, h] using ih rest out newly
        · refine ⟨by simp [renderToks, matchedAux, h], fun _ => by simp [renderToks, h]⟩
    | var n args =>
      by_cases h : included stack = true
      · simpa [renderToks, matchedAux, h] using
          ih stack (out ++ (resolveString env n args).1)
            (newly ++ (resolveString env n args).2)
      · simpa [renderToks, matchedAux, h] using ih stack out newly
    | fn n args =>
      by_cases h : included stack = true
      · cases hf : resolveFunction env n args with
        | some o =>
          simpa [renderToks, matchedAux, h, hf] using
            ih stack (out ++ o.data) newly
        | none =>
          simpa [renderToks, matchedAux, h, hf] using
            ih stack (out ++ unresolvedFnText n args) newly
      · simpa [renderToks, matchedAux, h] using ih stack out newly

/-- Inside an excluded region (some enclosing block's condition is false),
the engine only tracks block nesting: a properly nested token sequence is
consumed without any output, any newly-rendered recording, or any state
change. -/
theorem renderToks_skip (env : Env) :
    ∀ (toks : List Tok) (pushed stack₀ : List (String × Bool)) (rest : List Tok)
      (out : List Char) (newly : List Nat),
      stack₀.all (fun p => p.2) = false →
      matchedAux toks (pushed.map Prod.fst) = true →
      renderToks env (toks ++ rest) (pushed ++ stack₀) out newly
        = renderToks env rest stack₀ out newly := by
  intro toks
  induction toks with
  | nil =>
    intro pushed stack₀ rest out newly h0 hm
    have hp : pushed = [] := by
      have := (List.isEmpty_iff).mp (by simpa [matchedAux] using hm)
      simpa [List.map_eq_nil_iff] using this
    subst hp
    simp
  | cons t ts ih =>
    intro pushed stack₀ rest out newly h0 hm
    have hinc : included (pushed ++ stack₀) = false := by
      simp [included, List.all_append, h0]
    cases t with
    | lit s =>
      simp only [List.cons_append, renderToks, hinc, Bool.false_eq_true, if_false]
      exact ih pushed stack₀ rest out newly h0 (by simpa [matchedAux] using hm)
    | openBlock n =>
      simp only [List.cons_append, renderToks]
      exact ih ((n, conditionValue env n) :: pushed) stack₀ rest out newly h0
        (by simpa [matchedAux] using hm)
    | closeBlock n =>
      cases pushed with
      | nil => simp [matchedAux] at hm
      | cons p pushed' =>
        by_cases h : n = p.1
        · simp only [List.cons_append, List.cons_append, renderToks]
          have : renderToks env ((ts ++ rest)) (pushed' ++ stack₀) out newly
              = renderToks env rest stack₀ out newly :=
            ih pushed' stack₀ rest out newly h0
              (by simpa [matchedAux, h] using hm)
          simpa [h] using this
        · simp [matchedAux, h] at hm
    | var n args =>
      simp only [List.cons_append, renderToks, hinc, Bool.false_eq_true, if_false]
      exact ih pushed stack₀ rest out newly h0 (by simpa [matchedAux] using hm)
    | fn n args =>
      simp only [List.cons_append, renderToks, hinc, Bool.false_eq_true, if_false]
      exact ih pushed stack₀ rest out newly h0 (by simpa [matchedAux] using hm)

/-- On a directive-free text the scanner succeeds and produces exactly the
literal tokens, consuming the "$$" escape. -/
theorem scanF_noDirectives :
    ∀ (f : Nat) (cs : List Char), noDirectives cs = true → cs.length < f →
      scanF f cs = some (litToks cs) := by
  intro f
  induction f with
  | zero => intro cs _ h; exact absurd h (Nat.not_lt_zero _)
  | succ f ih =>
    intro cs hnd hlen
    match cs with
    | [] => rfl
    | [c] => rfl
    | c :: d :: cs =>
      by_cases hc : c = '$'
      · by_cases hd : d = '$'
        · subst hc; subst hd
          have h1 : noDirectives cs = true := by simpa [noDirectives] using hnd
          have h2 : cs.length < f := by
            simp only [List.length_cons] at hlen; omega
          simp [scanF, litToks, ih cs h1 h2]
        · by_cases he : d = '{'
          · subst hc; subst he
            simp [noDirectives] at hnd
          · subst hc
            have h1 : noDirectives (d :: cs) = true := by
              simpa [noDirectives, hd, he] using hnd
            have h2 : (d :: cs).length < f := by
              simp only [List.length_cons] at hlen ⊢; omega
            simp [scanF, litToks, hd, he, ih (d :: cs) h1 h2]
      · have h1 : noDirectives (d :: cs) = true := by
          simpa [noDirectives, hc] using hnd
        have h2 : (d :: cs).length < f := by
          simp only [List.length_cons] at hlen ⊢; omega
        simp [scanF, litToks, hc, ih (d :: cs) h1 h2]

/-- Rendering the literal tokens of a directive-free text appends its
unescaped form to the output and succeeds. -/
theorem renderToks_litToks (env : Env) :
    ∀ (n : Nat) (cs : List Char), cs.length ≤ n →
      ∀ (out : List Char) (newly : List Nat),
        renderToks env (litToks cs) [] out newly
          = ⟨out ++ unescape cs, newly, true, ""⟩ := by
  intro n
  induction n with
  | zero =>
    intro cs h out newly
    have : cs = [] := List.eq_nil_of_length_eq_zero (Nat.le_zero.mp h)
    subst this
    simp [litToks, renderToks, unescape]
  | succ n ih =>
    intro cs h out newly
    match cs with
    | [] => simp [litToks, renderToks, unescape]
    | [c] => simp [litToks, renderToks, unescape, included]
    | c :: d :: cs =>
      have h2 : cs.length ≤ n := by
        simp only [List.length_cons] at h; omega
      have h3 : (d :: cs).length ≤ n := by
        simp only [List.length_cons] at h ⊢; omega
      by_cases hc : c = '$'
      · by_cases hd : d = '$'
        · subst hc; subst hd
          simp [litToks, unescape, renderToks, included, ih cs h2]
        · subst hc
          simp [litToks, unescape, renderToks, included, hd, ih (d :: cs) h3]
      · simp [litToks, unescape, renderToks, included, hc, ih (d :: cs) h3]

/-- Claim C1: for a variable directive with no function-colon form,
resolution follows the precedence of resolveString: a bound string is
written if present; otherwise a bound component's markup representation is
written (and the component recorded as newly rendered); otherwise
handleUnresolvedVariable is invoked.  In particular a string binding always
wins, whatever the widget map or the fallback hook could provide. -/
theorem resolveString_precedence (env : Env) (n : String) (args : List String) :
    (∀ s, alookup env.strings n = some s →
        resolveString env n args = (s.data, [])
        ∧ renderToks env [Tok.var n args] [] [] [] = ⟨s.data, [], true, ""⟩)
    ∧ (∀ w, alookup env.strings n = none → alookup env.widgets n = some w →
        resolveString env n args = (w.markup, [w.id]))
    ∧ (alookup env.strings n = none → alookup env.widgets n = none →
        resolveString env n args = (handleUnresolvedVariable env n args, [])) := by
  refine ⟨fun s hs => ⟨?_, ?_⟩, fun w hs hw => ?_, fun hs hw => ?_⟩
  · simp [resolveString, hs]
  · simp [renderToks, included, resolveString, hs]
  · simp [resolveString, hs, hw]
  · simp [resolveString, hs, hw]

/-- An environment in which the name "n" is satisfiable by a string binding,
a component binding, and the fallback hook all at once. -/
def envBoth : Env :=
  { strings := [("n", "S")], widgets := [("n", ⟨7, ['W']⟩)], conditions := [],
    functions := [], fallback := fun _ _ => some ['F'] }

/-- Claim C1 witness: with a string, a widget and a fallback all able to
satisfy "n", the string binding's value is what appears in the output. -/
theorem resolveString_precedence_witness :
    resolveString envBoth "n" [] = ("S".data, [])
    ∧ renderToks envBoth [Tok.var "n" []] [] [] [] = ⟨"S".data, [], true, ""⟩ :=
  (resolveString_precedence envBoth "n" []).1 "S" (by decide)

/-- Claim C2: a template text containing no directives renders successfully
to the literal text with the "$$" to "$" escape applied, with nothing newly
rendered and no error. -/
theorem render_literal_text (env : Env) (cs : List Char)
    (h : noDirectives cs = true) :
    renderTemplateText env cs = ⟨unescape cs, [], true, ""⟩ := by
  unfold renderTemplateText scan
  rw [scanF_noDirectives (cs.length + 1) cs h (Nat.lt_succ_self _)]
  simpa using renderToks_litToks env cs.length cs (Nat.le_refl _) [] []

/-- Claim C2 witness: the template "$${foo}" is directive-free and renders
to the literal text "${foo}". -/
theorem render_literal_text_witness :
    noDirectives "$${foo}".data = true
    ∧ renderTemplateText initEnv "$${foo}".data
        = ⟨"${foo}".data, [], true, ""⟩ :=
  ⟨by decide, (render_literal_text initEnv "$${foo}".data (by decide)).trans (by decide)⟩

/-- Claim C3: when the condition of a block is false, a properly nested
block body is consumed with no effect at all: the render of the template
with the excluded block equals the render of the template without it, so no
content inside the block reaches the output and no component resolved only
inside it is recorded as newly rendered. -/
theorem excluded_block_invisible (env : Env) (x : String) (body rest : List Tok)
    (stack : List (String × Bool)) (out : List Char) (newly : List Nat)
    (hx : conditionValue env x = false) (hb : matchedAux body [] = true) :
    renderToks env
        (Tok.openBlock x :: (body ++ (Tok.closeBlock x :: rest)))
        stack out newly
      = renderToks env rest stack out newly := by
  simp only [renderToks, hx]
  have hskip := renderToks_skip env body [] ((x, false) :: stack)
    (Tok.closeBlock x :: rest) out newly (by simp) (by simpa using hb)
  simp only [List.nil_append] at hskip
  rw [hskip]
  simp [renderToks]

/-- An environment with the condition "x" unset (hence false) and a widget
bound to the variable "w". -/
def envExcluded : Env :=
  { strings := [], widgets := [("w", ⟨5, ['W']⟩)], conditions := [],
    functions := [], fallback := fun _ _ => none }

/-- Claim C3 witness: the content of the excluded block "x" — a literal and
a variable bound to widget 5 — is absent from the output and the widget is
not recorded as newly rendered. -/
theorem excluded_block_invisible_witness :
    renderToks envExcluded
        (Tok.openBlock "x" :: ([Tok.lit ['s'], Tok.var "w" []]
          ++ (Tok.closeBlock "x" :: [Tok.lit ['A']]))) [] [] []
      = ⟨['A'], [], true, ""⟩ :=
  (excluded_block_invisible envExcluded "x" [Tok.lit ['s'], Tok.var "w" []]
      [Tok.lit ['A']] [] [] [] (by decide) (by decide)).trans (by decide)

/-- Claim C4: for a template whose directives scan, renderTemplateText
returns true exactly when the conditional-block directives are correctly
nested and balanced; on any failure (missing close, close without open, or
mismatched close) it returns false and the error is retrievable as a
non-empty string through getErrorText after the render cycle stores it.
The render entry point is a total function: every outcome is reported
through the returned success flag, never by an exception. -/
theorem render_ok_iff_balanced (env : Env) (cs : List Char) (toks : List Tok)
    (p : List Nat) (e : String) (h : scan cs = some toks) :
    ((renderTemplateText env cs).ok = true ↔ matchedAux toks [] = true)
    ∧ ((renderTemplateText env cs).ok = false →
        getErrorText (renderCycle ⟨env, p, e⟩ cs).1 ≠ "") := by
  have hok := renderToks_ok_err env toks [] [] []
  have hrw : renderTemplateText env cs = renderToks env toks [] [] [] := by
    unfold renderTemplateText
    rw [h]
  constructor
  · rw [hrw]
    rw [hok.1]
    simp
  · intro hfail
    show (renderTemplateText env cs).err ≠ ""
    rw [hrw] at hfail ⊢
    exact hok.2 hfail

/-- Claim C4 witness: the balanced template succeeds; the template with a
missing close fails and leaves a retrievable non-empty error text. -/
theorem render_ok_iff_balanced_witness :
    (renderTemplateText initEnv "${<a>}hi${</a>}".data).ok = true
    ∧ (renderTemplateText initEnv "${<a>}hi".data).ok = false
    ∧ getErrorText (renderCycle initState "${<a>}hi".data).1 ≠ "" := by
  refine ⟨?_, by decide, ?_⟩
  · exact (render_ok_iff_balanced initEnv "${<a>}hi${</a>}".data
      [Tok.openBlock "a", Tok.lit ['h'], Tok.lit ['i'], Tok.closeBlock "a"]
      [] "" (by decide)).1.mpr (by decide)
  · exact (render_ok_iff_balanced initEnv "${<a>}hi".data
      [Tok.openBlock "a", Tok.lit ['h'], Tok.lit ['i']]
      [] "" (by decide)).2 (by decide)

/-- Claim C5: a variable with no string binding, no bound component and no
fallback resolution renders as the visible marker "??" ++ name ++ "??", and
the render still succeeds. -/
theorem unresolved_variable_marker (env : Env) (cs : List Char) (n : String)
    (args : List String)
    (hscan : scan cs = some [Tok.var n args])
    (hs : alookup env.strings n = none) (hw : alookup env.widgets n = none)
    (hf : env.fallback n args = none) :
    renderTemplateText env cs
      = ⟨'?' :: '?' :: (n.data ++ ['?', '?']), [], true, ""⟩ := by
  unfold renderTemplateText
  rw [hscan]
  simp [renderToks, included, resolveString, hs, hw, handleUnresolvedVariable, hf]

/-- Claim C5 witness: "${mystery}" with no bindings and no fallback renders
"??mystery??" and succeeds. -/
theorem unresolved_variable_marker_witness :
    renderTemplateText initEnv "${mystery}".data
      = ⟨"??mystery??".data, [], true, ""⟩ :=
  (unresolved_variable_marker initEnv "${mystery}".data "mystery" []
      (by decide) rfl rfl rfl).trans (by decide)

/-- The first widget bound in the diff-tracking scenario. -/
def wFirst : Widget := ⟨1, ['<', 'c', '1', '>']⟩

/-- The second widget bound in the diff-tracking scenario. -/
def wSecond : Widget := ⟨2, ['<', 'c', '2', '>']⟩

/-- Scenario state: "a" bound to the first widget. -/
def diffStateA : RState := (bindWidget initState "a" (some wFirst)).1

/-- Scenario: first render of the template. -/
def diffCycle1 : RState × RenderResult × List Nat :=
  renderCycle diffStateA "${a}".data

/-- Scenario state: "a" rebound to the second widget after the first render. -/
def diffStateB : RState := (bindWidget diffCycle1.1 "a" (some wSecond)).1

/-- Scenario: second render of the template. -/
def diffCycle2 : RState × RenderResult × List Nat :=
  renderCycle diffStateB "${a}".data

/-- Claim C6: on every render (successful or not) the removed set equals the
previously-rendered set minus the newly-rendered set, after which the
previously-rendered set is replaced by the newly-rendered set; in the
rebinding scenario the second render removes exactly the first widget and
newly renders exactly the second. -/
theorem render_diff_tracker :
    (∀ (st : RState) (text : List Char),
      (renderCycle st text).2.2
          = st.prevRendered.filter
              (fun i => decide (i ∉ (renderTemplateText st.env text).newly))
      ∧ (renderCycle st text).1.prevRendered
          = (renderTemplateText st.env text).newly)
    ∧ diffCycle2.2.2 = [wFirst.id] ∧ diffCycle2.2.1.newly = [wSecond.id] :=
  ⟨fun _ _ => ⟨rfl, rfl⟩, by decide, by decide⟩

/-- Claim C7: with no binding or condition change in between, a second
render produces an identical result (in particular byte-identical output)
and an empty removed set. -/
theorem render_idempotent (st : RState) (text : List Char) :
    (renderCycle (renderCycle st text).1 text).2.1 = (renderCycle st text).2.1
    ∧ (renderCycle (renderCycle st text).1 text).2.2 = [] := by
  refine ⟨rfl, ?_⟩
  show (renderTemplateText st.env text).newly.filter
      (fun i => decide (i ∉ (renderTemplateText st.env text).newly)) = []
  exact filter_not_mem_sub _ _ (fun _ hx => hx)

/-- Claim C8: clear removes all string bindings and all bound components,
resets every condition to false, and leaves the function registry unchanged:
a function added with addFunction before clear still resolves after it. -/
theorem clear_keeps_functions (st : RState) (n x : String)
    (f : List String → Option String) (args : List String) :
    (clear st).env.strings = [] ∧ (clear st).env.widgets = []
    ∧ conditionValue (clear st).env x = false
    ∧ (clear st).env.functions = st.env.functions
    ∧ resolveFunction (clear (addFunction st n f)).env n args = f args := by
  refine ⟨rfl, rfl, by simp [conditionValue, clear], rfl, ?_⟩
  simp [resolveFunction, clear, addFunction, ainsert, alookup]

/-- The widget held by the variable before the rebinding. -/
def wOld : Widget := ⟨1, ['O']⟩

/-- The different widget bound to the same variable afterwards. -/
def wNew : Widget := ⟨2, ['N']⟩

/-- State with "a" bound to the old widget. -/
def reboundState : RState := (bindWidget initState "a" (some wOld)).1

/-- Claim C9 counterexample: with "a" already holding widget 1, binding the
different widget 2 to "a" does not fail as a no-op: the call reports success
and the binding store now maps "a" to widget 2, exactly as the header
documents ("If a widget was already bound to the variable, it is deleted
first", WTemplate.h lines 446-448). -/
theorem rebind_same_name_replaces :
    (bindWidget reboundState "a" (some wNew)).2 = true
    ∧ alookup (bindWidget reboundState "a" (some wNew)).1.env.widgets "a"
        = some wNew := by
  exact ⟨by decide, by decide⟩

/-- Claim C9 (amended): binding a component that is already bound under
another variable name fails as a no-op of that bind call, leaving the state
unchanged; binding to a name that already holds a different component is not
an error — the bind succeeds and replaces the prior binding, which is
deleted. -/
theorem bindWidget_already_bound (st : RState) (n : String) (w : Widget) :
    (boundElsewhere st.env n w = true → bindWidget st n (some w) = (st, false))
    ∧ (boundElsewhere st.env n w = false →
        (bindWidget st n (some w)).2 = true
        ∧ alookup (bindWidget st n (some w)).1.env.widgets n = some w) := by
  constructor
  · intro h
    simp [bindWidget, h]
  · intro h
    refine ⟨by simp [bindWidget, h], ?_⟩
    simp [bindWidget, h, ainsert, alookup]

/-- State with "b" bound to the old widget. -/
def otherBoundState : RState := (bindWidget initState "b" (some wOld)).1

/-- Claim C9 (amended) witness: binding under "a" the widget already owned
under "b" is a reported no-op failure; binding a fresh widget succeeds and
stores it. -/
theorem bindWidget_already_bound_witness :
    bindWidget otherBoundState "a" (some wOld) = (otherBoundState, false)
    ∧ (bindWidget initState "a" (some wOld)).2 = true
    ∧ alookup (bindWidget initState "a" (some wOld)).1.env.widgets "a"
        = some wOld :=
  ⟨(bindWidget_already_bound otherBoundState "a" wOld).1 (by decide),
   (bindWidget_already_bound initState "a" wOld).2 (by decide)⟩

/-- Claim C10: binding a null widget is accepted: the call succeeds, any
widget previously bound to the variable is removed from the binding store,
and the variable thereafter resolves to the empty string. -/
theorem bindWidget_null (st : RState) (n : String) (args : List String) :
    (bindWidget st n none).2 = true
    ∧ alookup (bindWidget st n none).1.env.widgets n = none
    ∧ resolveString (bindWidget st n none).1.env n args = ([], []) := by
  refine ⟨rfl, ?_, ?_⟩
  · show alookup (aerase st.env.widgets n) n = none
    exact alookup_aerase _ _
  · simp [resolveString, bindWidget, bindEmpty, bindString, ainsert, alookup]
